import Mathlib

/-!
Formal model of the `aviation_lib` Python library (flight, fuel, weather and
airport computations) and proofs about its specified behaviour.

Python floats are idealised as exact rationals (`ℚ`) for the purely
arithmetic code, and as reals (`ℝ`) for the trigonometric haversine code.
Python operations that can raise are embedded as `Except PyErr` values:
`/` raises `ZeroDivisionError` on a zero divisor, `math.sqrt` and
`math.asin` raise `ValueError` (math domain error) outside their domains,
and explicit `raise ValueError(msg)` statements become `.error (.valueError msg)`.
-/

/-- Kinds of Python exceptions raised by the embedded operations. -/
inductive PyErr where
  | valueError (msg : String)
  | zeroDivisionError
  | mathDomainError
deriving DecidableEq

deriving instance DecidableEq for Except

/-- Python `str.upper()` on the ASCII strings used as dictionary keys. -/
def py_upper (s : String) : String := ⟨s.data.map Char.toUpper⟩

/-- Python `str.lower()` on the ASCII strings used as dictionary keys. -/
def py_lower (s : String) : String := ⟨s.data.map Char.toLower⟩

/-- Python float division `a / b`: raises `ZeroDivisionError` when `b == 0`. -/
def pydiv (a b : ℚ) : Except PyErr ℚ :=
  if b = 0 then .error .zeroDivisionError else .ok (a / b)

/-- `FlightCalculator.calculate_flight_time` (src/aviation_lib/flight_calculator.py):
raises `ValueError` when `speed <= 0`, otherwise returns
`distance / (speed * wind_factor)` (the division raises when the effective
speed is zero).  The Python default for `wind_factor` is `1.0`. -/
def calculate_flight_time (distance speed wind_factor : ℚ) : Except PyErr ℚ :=
  if speed ≤ 0 then .error (.valueError "Скорость должна быть больше 0")
  else pydiv distance (speed * wind_factor)

/-- One entry of `FuelCalculator.aircraft_profiles`. -/
structure AircraftProfile where
  fuel_rate : ℚ
  cruise_speed : ℚ
  max_range : ℚ
  fuel_capacity : ℚ
deriving DecidableEq

/-- The `"default"` profile of `FuelCalculator.aircraft_profiles`. -/
def default_profile : AircraftProfile := ⟨2.0, 600, 3000, 5000⟩

/-- `FuelCalculator.aircraft_profiles` (src/aviation_lib/fuel_calculator.py). -/
def aircraft_profiles : List (String × AircraftProfile) :=
  [("boeing_737", ⟨2.5, 800, 5000, 26000⟩),
   ("airbus_a320", ⟨2.3, 820, 5500, 24000⟩),
   ("boeing_777", ⟨4.2, 900, 15000, 180000⟩),
   ("airbus_a380", ⟨5.8, 900, 15000, 320000⟩),
   ("cessna_172", ⟨0.8, 200, 1000, 200⟩),
   ("default", default_profile)]

/-- The profile lookup `self.aircraft_profiles.get(aircraft_type.lower(),
self.aircraft_profiles["default"])` shared by the `FuelCalculator` methods. -/
def get_profile (aircraft_type : String) : AircraftProfile :=
  (aircraft_profiles.lookup (py_lower aircraft_type)).getD default_profile

/-- The `FuelConsumption` dataclass of src/aviation_lib/fuel_calculator.py. -/
structure FuelConsumption where
  total_fuel : ℚ
  fuel_per_100km : ℚ
  fuel_per_hour : ℚ
  flight_time : ℚ
  distance : ℚ
deriving DecidableEq

/-- `FuelCalculator.calculate_fuel_consumption` (src/aviation_lib/fuel_calculator.py).
Python defaults: `wind_factor = 1.0`, `payload_factor = 1.0`. -/
def calculate_fuel_consumption (distance : ℚ) (aircraft_type : String)
    (wind_factor payload_factor : ℚ) : Except PyErr FuelConsumption := do
  let profile := get_profile aircraft_type
  let base_fuel_rate := profile.fuel_rate
  let adjusted_fuel_rate := base_fuel_rate * wind_factor * payload_factor
  let flight_time ← pydiv distance profile.cruise_speed
  let hundredth ← pydiv distance 100
  let total_fuel := hundredth * adjusted_fuel_rate
  let fuel_per_hour ← if flight_time > 0 then pydiv total_fuel flight_time else pure 0
  return ⟨total_fuel, adjusted_fuel_rate, fuel_per_hour, flight_time, distance⟩

/-- `FuelCalculator.calculate_fuel_efficiency` (src/aviation_lib/fuel_calculator.py). -/
def calculate_fuel_efficiency (distance fuel_used : ℚ) : Except PyErr ℚ :=
  if fuel_used ≤ 0 then .ok 0 else pydiv distance fuel_used

/-- One element of the list built by `FuelCalculator.compare_aircraft_efficiency`. -/
structure EfficiencyEntry where
  aircraft_type : String
  fuel_consumption : ℚ
  efficiency : ℚ
  flight_time : ℚ
  fuel_per_100km : ℚ
deriving DecidableEq

/-- The accumulation loop of `FuelCalculator.compare_aircraft_efficiency`:
one entry per requested aircraft type, in input order. -/
def efficiency_entries (distance : ℚ) : List String → Except PyErr (List EfficiencyEntry)
  | [] => .ok []
  | t :: ts => do
      let c ← calculate_fuel_consumption distance t 1 1
      let e ← calculate_fuel_efficiency distance c.total_fuel
      let rest ← efficiency_entries distance ts
      return ⟨t, c.total_fuel, e, c.flight_time, c.fuel_per_100km⟩ :: rest

/-- `FuelCalculator.compare_aircraft_efficiency` (src/aviation_lib/fuel_calculator.py):
builds one entry per type, then `results.sort(key=..., reverse=True)` — a stable
descending sort by efficiency, embedded as the stable `List.mergeSort`. -/
def compare_aircraft_efficiency (distance : ℚ) (aircraft_types : List String) :
    Except PyErr (List EfficiencyEntry) := do
  let results ← efficiency_entries distance aircraft_types
  return results.mergeSort fun x y => decide (y.efficiency ≤ x.efficiency)

/-- The `self.visibility_thresholds` / `self.wind_thresholds` tables of
`WeatherAnalyzer.__init__` (src/aviation_lib/weather_analyzer.py). -/
structure WeatherThresholds where
  excellent : ℚ
  good : ℚ
  fair : ℚ
  poor : ℚ
  dangerous : ℚ
deriving DecidableEq

/-- `WeatherAnalyzer.visibility_thresholds` (metres). -/
def visibility_thresholds : WeatherThresholds := ⟨10000, 5000, 2000, 1000, 500⟩

/-- `WeatherAnalyzer.wind_thresholds` (m/s). -/
def wind_thresholds : WeatherThresholds := ⟨10, 15, 20, 25, 30⟩

/-- The condition `visibility is None or visibility > self.visibility_thresholds["excellent"]`
used in `WeatherAnalyzer._get_overall_condition`. -/
def visibility_above_excellent : Option ℚ → Bool
  | none => true
  | some v => decide (v > visibility_thresholds.excellent)

/-- The condition `visibility is not None and visibility < self.visibility_thresholds["good"]`
used in `WeatherAnalyzer._get_recommendations`. -/
def visibility_below_good : Option ℚ → Bool
  | none => false
  | some v => decide (v < visibility_thresholds.good)

/-- The part of `WeatherAnalyzer._get_overall_condition` after the initial
visibility block: wind, pressure-deviation, temperature and banding checks,
in source order. -/
def overall_condition_tail (temperature pressure wind_speed : ℚ)
    (visibility : Option ℚ) : String :=
  if wind_speed > wind_thresholds.dangerous then "dangerous"
  else if wind_speed > wind_thresholds.poor then "poor"
  else if |pressure - 1013| > 50 then "poor"
  else if temperature < -40 ∨ temperature > 50 then "poor"
  else if wind_speed < wind_thresholds.excellent ∧ |pressure - 1013| < 20 ∧
          visibility_above_excellent visibility = true then "excellent"
  else if wind_speed < wind_thresholds.good ∧ |pressure - 1013| < 30 then "good"
  else "fair"

/-- `WeatherAnalyzer._get_overall_condition` (src/aviation_lib/weather_analyzer.py):
the visibility checks run first and return early, then the rest of the cascade. -/
def get_overall_condition (temperature pressure wind_speed : ℚ)
    (visibility : Option ℚ) : String :=
  match visibility with
  | some v =>
      if v < visibility_thresholds.dangerous then "dangerous"
      else if v < visibility_thresholds.poor then "poor"
      else overall_condition_tail temperature pressure wind_speed (some v)
  | none => overall_condition_tail temperature pressure wind_speed none

/-- `WeatherAnalyzer._get_recommendations` (src/aviation_lib/weather_analyzer.py):
the advisory strings appended in source order, with the favourable message
when nothing was appended. -/
def get_recommendations (temperature pressure wind_speed : ℚ)
    (visibility : Option ℚ) : List String :=
  let recs :=
    (if wind_speed > wind_thresholds.fair then ["Осторожно: сильный ветер"] else []) ++
    (if pressure < 1000 then ["Внимание: низкое давление"]
     else if pressure > 1030 then ["Внимание: высокое давление"] else []) ++
    (if visibility_below_good visibility = true then ["Ограниченная видимость"] else []) ++
    (if temperature < -20 then ["Экстремально низкая температура"]
     else if temperature > 40 then ["Экстремально высокая температура"] else [])
  if recs = [] then ["Условия благоприятны для полета"] else recs

/-- The dictionary returned by `WeatherAnalyzer.analyze_conditions`. -/
structure WeatherReport where
  temperature : ℚ
  pressure : ℚ
  wind_speed : ℚ
  visibility : Option ℚ
  overall_condition : String
  recommendations : List String
deriving DecidableEq

/-- `WeatherAnalyzer.analyze_conditions` (src/aviation_lib/weather_analyzer.py).
Python default: `visibility = None`. -/
def analyze_conditions (temperature pressure wind_speed : ℚ)
    (visibility : Option ℚ) : WeatherReport :=
  ⟨temperature, pressure, wind_speed, visibility,
   get_overall_condition temperature pressure wind_speed visibility,
   get_recommendations temperature pressure wind_speed visibility⟩

/-- The `Airport` class of src/aviation_lib/airport_manager.py
(coordinates idealised as exact rationals). -/
structure Airport where
  icao_code : String
  name : String
  city : String
  country : String
  latitude : ℚ
  longitude : ℚ
  elevation : ℚ
deriving DecidableEq

/-- The flat record produced by `Airport.to_dict`. -/
structure AirportDict where
  icao_code : String
  name : String
  city : String
  country : String
  latitude : ℚ
  longitude : ℚ
  elevation : ℚ
deriving DecidableEq

/-- `Airport.to_dict` (src/aviation_lib/airport_manager.py). -/
def Airport.to_dict (a : Airport) : AirportDict :=
  ⟨a.icao_code, a.name, a.city, a.country, a.latitude, a.longitude, a.elevation⟩

/-- The state of an `AirportManager`: its `self.airports` dictionary, embedded
as an insertion-ordered association list with unique keys. -/
structure AirportManager where
  airports : List (String × Airport)
deriving DecidableEq

/-- Python dictionary assignment `d[k] = v`: replaces the value in place when
the key is present, otherwise appends a new entry. -/
def dict_set (k : String) (v : Airport) (l : List (String × Airport)) :
    List (String × Airport) :=
  if l.any (fun p => p.1 == k) then
    l.map (fun p => if p.1 == k then (k, v) else p)
  else l ++ [(k, v)]

def uuee : Airport := ⟨"UUEE", "Шереметьево", "Москва", "Россия", 55.9736, 37.4145, 190⟩
def uudd : Airport := ⟨"UUDD", "Домодедово", "Москва", "Россия", 55.4146, 37.8994, 179⟩
def uumo : Airport := ⟨"UUMO", "Внуково", "Москва", "Россия", 55.5915, 37.2615, 209⟩
def egll : Airport := ⟨"EGLL", "Хитроу", "Лондон", "Великобритания", 51.4700, -0.4543, 25⟩
def lfpg : Airport := ⟨"LFPG", "Шарль де Голль", "Париж", "Франция", 49.0097, 2.5479, 119⟩
def eddf : Airport := ⟨"EDDF", "Франкфурт", "Франкфурт", "Германия", 50.0379, 8.5622, 113⟩
def kjfk : Airport := ⟨"KJFK", "Кеннеди", "Нью-Йорк", "США", 40.6413, -73.7781, 4⟩
def klax : Airport := ⟨"KLAX", "Лос-Анджелес", "Лос-Анджелес", "США", 33.9416, -118.4085, 38⟩
def rjtt : Airport := ⟨"RJTT", "Ханеда", "Токио", "Япония", 35.5494, 139.7798, 6⟩
def zbaa : Airport := ⟨"ZBAA", "Пекин Столичный", "Пекин", "Китай", 40.0801, 116.5846, 35⟩

/-- The `default_airports` list of `AirportManager._load_default_airports`. -/
def default_airports : List Airport :=
  [uuee, uudd, uumo, egll, lfpg, eddf, kjfk, klax, rjtt, zbaa]

/-- `AirportManager.__init__`: an empty dictionary populated by the
`_load_default_airports` loop `self.airports[airport.icao_code] = airport`. -/
def initial_airport_manager : AirportManager :=
  ⟨default_airports.foldl (fun l a => dict_set a.icao_code a l) []⟩

/-- `AirportManager.add_airport` (src/aviation_lib/airport_manager.py):
`self.airports[airport.icao_code] = airport`. -/
def add_airport (m : AirportManager) (a : Airport) : AirportManager :=
  ⟨dict_set a.icao_code a m.airports⟩

/-- `AirportManager.get_airport` (src/aviation_lib/airport_manager.py):
`self.airports.get(icao_code.upper())`. -/
def get_airport (m : AirportManager) (icao_code : String) : Option Airport :=
  m.airports.lookup (py_upper icao_code)

/-- The registry states reachable by constructing an `AirportManager` (which
loads the default airports) and then performing any sequence of
`add_airport` calls. -/
inductive Reachable : AirportManager → Prop where
  | init : Reachable initial_airport_manager
  | add (m : AirportManager) (a : Airport) : Reachable m → Reachable (add_airport m a)

/-- `math.radians`: degrees to radians. -/
noncomputable def radians (x : ℝ) : ℝ := x * Real.pi / 180

/-- `self.earth_radius` of `FlightCalculator.__init__` (km); the inline
haversine in `AirportManager.calculate_distance_between_airports` uses the
same constant `earth_radius = 6371`. -/
def earth_radius : ℝ := 6371

/-- The haversine central-angle argument
`a = sin(dlat/2)**2 + cos(lat1)*cos(lat2)*sin(dlon/2)**2` shared verbatim by
`FlightCalculator.calculate_distance` and
`AirportManager.calculate_distance_between_airports`. -/
noncomputable def haversine_arg (lat1 lon1 lat2 lon2 : ℝ) : ℝ :=
  Real.sin ((radians lat2 - radians lat1) / 2) ^ 2 +
    Real.cos (radians lat1) * Real.cos (radians lat2) *
      Real.sin ((radians lon2 - radians lon1) / 2) ^ 2

/-- `FlightCalculator.calculate_distance` (src/aviation_lib/flight_calculator.py),
identical to the inline formula of
`AirportManager.calculate_distance_between_airports`:
`earth_radius * (2 * asin(sqrt(a)))`. -/
noncomputable def calculate_distance (lat1 lon1 lat2 lon2 : ℝ) : ℝ :=
  earth_radius * (2 * Real.arcsin (Real.sqrt (haversine_arg lat1 lon1 lat2 lon2)))

open Classical in
/-- Python `math.sqrt`: raises `ValueError` (math domain error) on a negative
argument. -/
noncomputable def pysqrt (x : ℝ) : Except PyErr ℝ :=
  if 0 ≤ x then .ok (Real.sqrt x) else .error .mathDomainError

open Classical in
/-- Python `math.asin`: raises `ValueError` (math domain error) outside `[-1, 1]`. -/
noncomputable def pyasin (x : ℝ) : Except PyErr ℝ :=
  if -1 ≤ x ∧ x ≤ 1 then .ok (Real.arcsin x) else .error .mathDomainError

/-- `FlightCalculator.calculate_distance` with Python's partial `math.sqrt`
and `math.asin` made explicit. -/
noncomputable def calculate_distance_checked (lat1 lon1 lat2 lon2 : ℝ) :
    Except PyErr ℝ := do
  let s ← pysqrt (haversine_arg lat1 lon1 lat2 lon2)
  let c ← pyasin s
  return earth_radius * (2 * c)

/-- `AirportManager.calculate_distance_between_airports`
(src/aviation_lib/airport_manager.py): `None` when either lookup fails,
otherwise the haversine distance between the two stored airports. -/
noncomputable def calculate_distance_between_airports (m : AirportManager)
    (icao1 icao2 : String) : Option ℝ :=
  match get_airport m icao1, get_airport m icao2 with
  | some a1, some a2 =>
      some (calculate_distance a1.latitude a1.longitude a2.latitude a2.longitude)
  | _, _ => none

/-- The dictionary returned by `AirportManager.get_route_info`. -/
structure RouteInfo where
  departure : AirportDict
  arrival : AirportDict
  distance_km : Option ℝ
  route : String

/-- `AirportManager.get_route_info` (src/aviation_lib/airport_manager.py):
`None` when either endpoint lookup fails, otherwise both airport snapshots,
the computed distance and the directional route label. -/
noncomputable def get_route_info (m : AirportManager) (departure arrival : String) :
    Option RouteInfo :=
  match get_airport m departure, get_airport m arrival with
  | some dep, some arr =>
      some ⟨dep.to_dict, arr.to_dict,
            calculate_distance_between_airports m departure arrival,
            dep.icao_code ++ " → " ++ arr.icao_code⟩
  | _, _ => none

lemma except_bind_ok {α β : Type} (x : α) (f : α → Except PyErr β) :
    (Except.ok x >>= f) = f x := rfl

lemma pydiv_ok {a b : ℚ} (h : b ≠ 0) : pydiv a b = .ok (a / b) := by
  simp [pydiv, h]

lemma lookup_mem {β : Type} {l : List (String × β)} {k : String} {v : β}
    (h : l.lookup k = some v) : (k, v) ∈ l := by
  induction l with
  | nil => simp at h
  | cons p l ih =>
    obtain ⟨k', v'⟩ := p
    rw [List.lookup_cons] at h
    rcases hk : k == k' with _ | _
    · rw [hk] at h
      exact List.mem_cons_of_mem _ (ih h)
    · rw [hk] at h
      obtain rfl : v' = v := by simpa using h
      obtain rfl : k = k' := by simpa using hk
      exact List.mem_cons_self _ _

lemma cruise_speed_pos (t : String) : 0 < (get_profile t).cruise_speed := by
  unfold get_profile
  cases h : aircraft_profiles.lookup (py_lower t) with
  | none => norm_num [default_profile]
  | some pr =>
    have hm := lookup_mem h
    simp only [Option.getD_some]
    simp only [aircraft_profiles, List.mem_cons, List.not_mem_nil, or_false,
      Prod.mk.injEq] at hm
    rcases hm with ⟨_, rfl⟩ | ⟨_, rfl⟩ | ⟨_, rfl⟩ | ⟨_, rfl⟩ | ⟨_, rfl⟩ | ⟨_, rfl⟩ <;>
      norm_num [default_profile]

/-- The record computed by `calculate_fuel_consumption`, field by field as the
source computes it; in particular the call never returns an error. -/
lemma calculate_fuel_consumption_eq (d : ℚ) (t : String) (w p : ℚ) :
    calculate_fuel_consumption d t w p =
      .ok ⟨d / 100 * ((get_profile t).fuel_rate * w * p),
           (get_profile t).fuel_rate * w * p,
           if d / (get_profile t).cruise_speed > 0 then
             d / 100 * ((get_profile t).fuel_rate * w * p) /
               (d / (get_profile t).cruise_speed)
           else 0,
           d / (get_profile t).cruise_speed,
           d⟩ := by
  have h1 : pydiv d (get_profile t).cruise_speed = .ok (d / (get_profile t).cruise_speed) :=
    pydiv_ok (ne_of_gt (cruise_speed_pos t))
  have h2 : pydiv d 100 = .ok (d / 100) := pydiv_ok (by norm_num)
  simp only [calculate_fuel_consumption, h1, h2, except_bind_ok]
  by_cases h : d / (get_profile t).cruise_speed > 0
  · rw [if_pos h, if_pos h, pydiv_ok (ne_of_gt h)]
    rfl
  · rw [if_neg h, if_neg h]
    rfl

lemma fuel_consumption_ok (d : ℚ) (t : String) (w p : ℚ) :
    ∃ r, calculate_fuel_consumption d t w p = .ok r :=
  ⟨_, calculate_fuel_consumption_eq d t w p⟩

lemma fuel_efficiency_ok (d f : ℚ) : ∃ r, calculate_fuel_efficiency d f = .ok r := by
  unfold calculate_fuel_efficiency
  by_cases h : f ≤ 0
  · exact ⟨0, by rw [if_pos h]⟩
  · exact ⟨d / f, by rw [if_neg h, pydiv_ok (by exact ne_of_gt (lt_of_not_le h))]⟩

/-- C4: for every distance and every `speed > 0` (with the default
`wind_factor` of 1.0), `calculate_flight_time` returns `distance / speed`;
for every `speed <= 0` it raises `ValueError`. -/
theorem C4_flight_time_spec (distance speed : ℚ) :
    (0 < speed → calculate_flight_time distance speed 1 = .ok (distance / speed)) ∧
    (speed ≤ 0 → calculate_flight_time distance speed 1 =
      .error (.valueError "Скорость должна быть больше 0")) := by
  constructor
  · intro h
    unfold calculate_flight_time
    rw [if_neg (not_le.mpr h), mul_one, pydiv_ok (ne_of_gt h)]
  · intro h
    unfold calculate_flight_time
    rw [if_pos h]

/-- Witness for C4 at `distance = 100`: `speed = 4` succeeds with `25`,
`speed = 0` raises. -/
theorem C4_witness :
    calculate_flight_time 100 4 1 = .ok (100 / 4) ∧
    calculate_flight_time 100 0 1 =
      .error (.valueError "Скорость должна быть больше 0") :=
  ⟨(C4_flight_time_spec 100 4).1 (by norm_num), (C4_flight_time_spec 100 0).2 le_rfl⟩

/-- C3: `calculate_fuel_consumption` uses the profile found by lowercasing
the aircraft type (falling back to the `"default"` profile, never failing)
and returns `total_fuel = (distance/100) * fuel_rate * wind_factor *
payload_factor`, `flight_time = distance / cruise_speed`, `fuel_per_100km`
equal to the adjusted rate, and `fuel_per_hour = total_fuel / flight_time`
when `flight_time > 0`, else `0`. -/
theorem C3_fuel_model (distance : ℚ) (aircraft_type : String)
    (wind_factor payload_factor : ℚ) :
    calculate_fuel_consumption distance aircraft_type wind_factor payload_factor =
      .ok ⟨distance / 100 * (get_profile aircraft_type).fuel_rate *
             wind_factor * payload_factor,
           (get_profile aircraft_type).fuel_rate * wind_factor * payload_factor,
           if distance / (get_profile aircraft_type).cruise_speed > 0 then
             distance / 100 * (get_profile aircraft_type).fuel_rate *
               wind_factor * payload_factor /
               (distance / (get_profile aircraft_type).cruise_speed)
           else 0,
           distance / (get_profile aircraft_type).cruise_speed,
           distance⟩ := by
  have e1 : ∀ x y z q : ℚ, x / 100 * (y * z * q) = x / 100 * y * z * q := by
    intros; ring
  rw [calculate_fuel_consumption_eq]
  simp only [e1]

/-- C9: for positive distances the `fuel_per_hour` field is independent of
the distance: it equals `cruise_speed * fuel_rate * wind_factor *
payload_factor / 100` for the selected profile. -/
theorem C9_fuel_per_hour_const (d : ℚ) (t : String) (w p : ℚ) (hd : 0 < d) :
    ∃ r, calculate_fuel_consumption d t w p = .ok r ∧
      r.fuel_per_hour =
        (get_profile t).cruise_speed * (get_profile t).fuel_rate * w * p / 100 := by
  refine ⟨_, calculate_fuel_consumption_eq d t w p, ?_⟩
  have hcs : 0 < (get_profile t).cruise_speed := cruise_speed_pos t
  have hpos : d / (get_profile t).cruise_speed > 0 := div_pos hd hcs
  simp only [if_pos hpos]
  field_simp
  ring

/-- Witness for C9: a Boeing 737 at 100 km burns
`800 * 2.5 * 1 * 1 / 100 = 20` litres per hour. -/
theorem C9_witness :
    ∃ r, calculate_fuel_consumption 100 "boeing_737" 1 1 = .ok r ∧
      r.fuel_per_hour = (get_profile "boeing_737").cruise_speed *
        (get_profile "boeing_737").fuel_rate * 1 * 1 / 100 :=
  C9_fuel_per_hour_const 100 "boeing_737" 1 1 (by norm_num)

lemma cos_mul_cos_eq (x y : ℝ) :
    Real.cos x * Real.cos y = (Real.cos (x - y) + Real.cos (x + y)) / 2 := by
  rw [Real.cos_sub, Real.cos_add]; ring

lemma hav_term_bounds (A B : ℝ) {s : ℝ} (h0 : 0 ≤ s) (h1 : s ≤ 1) :
    0 ≤ Real.sin ((B - A) / 2) ^ 2 + Real.cos A * Real.cos B * s ∧
      Real.sin ((B - A) / 2) ^ 2 + Real.cos A * Real.cos B * s ≤ 1 := by
  have hsin : Real.sin ((B - A) / 2) ^ 2 = 1 / 2 - Real.cos (A - B) / 2 := by
    rw [Real.sin_sq_eq_half_sub, show 2 * ((B - A) / 2) = -(A - B) by ring, Real.cos_neg]
  have hcos := cos_mul_cos_eq A B
  have hc1l := Real.neg_one_le_cos (A - B)
  have hc1u := Real.cos_le_one (A - B)
  have hc2l := Real.neg_one_le_cos (A + B)
  have hc2u := Real.cos_le_one (A + B)
  rw [hsin, hcos]
  constructor <;>
    nlinarith [mul_nonneg (sub_nonneg.mpr h1) (sub_nonneg.mpr hc1u),
      mul_nonneg h0 (by linarith : (0:ℝ) ≤ 1 + Real.cos (A + B)),
      mul_nonneg (sub_nonneg.mpr h1) (by linarith : (0:ℝ) ≤ 1 + Real.cos (A - B)),
      mul_nonneg h0 (sub_nonneg.mpr hc2u)]

/-- For every real input, the haversine central-angle argument lies in
`[0, 1]`: `math.sqrt` and `math.asin` are always called inside their
domains. -/
lemma haversine_arg_bounds (lat1 lon1 lat2 lon2 : ℝ) :
    0 ≤ haversine_arg lat1 lon1 lat2 lon2 ∧ haversine_arg lat1 lon1 lat2 lon2 ≤ 1 := by
  unfold haversine_arg
  exact hav_term_bounds (radians lat1) (radians lat2) (sq_nonneg _)
    (Real.sin_sq_le_one _)

lemma calculate_distance_checked_ok (lat1 lon1 lat2 lon2 : ℝ) :
    calculate_distance_checked lat1 lon1 lat2 lon2 =
      .ok (calculate_distance lat1 lon1 lat2 lon2) := by
  obtain ⟨h0, h1⟩ := haversine_arg_bounds lat1 lon1 lat2 lon2
  have hs0 : -1 ≤ Real.sqrt (haversine_arg lat1 lon1 lat2 lon2) :=
    le_trans (by norm_num) (Real.sqrt_nonneg _)
  have hs1 : Real.sqrt (haversine_arg lat1 lon1 lat2 lon2) ≤ 1 :=
    Real.sqrt_le_one.mpr h1
  unfold calculate_distance_checked pysqrt pyasin calculate_distance
  rw [if_pos h0, except_bind_ok, if_pos ⟨hs0, hs1⟩, except_bind_ok]
  rfl

/-- C5 (amended): the flight-time call returns a value whenever `speed > 0`
and the effective speed `speed * wind_factor` is nonzero, and the fuel,
efficiency and distance functions return a value on every input (the
weather analyzer contains no fallible operation).  The original claim is
refuted by `wind_factor = 0` (see the counterexample). -/
theorem C5_raise_surface :
    (∀ d s w : ℚ, 0 < s → s * w ≠ 0 →
      calculate_flight_time d s w = .ok (d / (s * w))) ∧
    (∀ (d : ℚ) (t : String) (w p : ℚ), ∃ r, calculate_fuel_consumption d t w p = .ok r) ∧
    (∀ d f : ℚ, ∃ r, calculate_fuel_efficiency d f = .ok r) ∧
    (∀ lat1 lon1 lat2 lon2 : ℝ,
      calculate_distance_checked lat1 lon1 lat2 lon2 =
        .ok (calculate_distance lat1 lon1 lat2 lon2)) := by
  refine ⟨?_, fuel_consumption_ok, fuel_efficiency_ok, calculate_distance_checked_ok⟩
  intro d s w hs hsw
  unfold calculate_flight_time
  rw [if_neg (not_le.mpr hs), pydiv_ok hsw]

/-- Counterexample to C5 as stated: `speed = 4 > 0` but `wind_factor = 0`
makes `calculate_flight_time` raise `ZeroDivisionError`. -/
theorem C5_counterexample :
    (0 : ℚ) < 4 ∧ calculate_flight_time 100 4 0 = .error .zeroDivisionError :=
  ⟨by norm_num, by with_unfolding_all rfl⟩

/-- Witness for C5 at `distance = 100`, `speed = 4`, `wind_factor = 1`. -/
theorem C5_witness : calculate_flight_time 100 4 1 = .ok (100 / (4 * 1)) :=
  C5_raise_surface.1 100 4 1 (by norm_num) (by norm_num)

/-- C2 (amended): a wind speed of 35 m/s (above the dangerous threshold 30)
yields `"dangerous"` for every temperature, pressure and visibility that is
`None`, below the dangerous visibility threshold 500, or at least the poor
visibility threshold 1000.  For `500 <= visibility < 1000` the earlier
visibility check returns `"poor"` first (see the counterexample). -/
theorem C2_wind35_dangerous (temperature pressure : ℚ) (visibility : Option ℚ)
    (h : visibility = none ∨ ∀ v, visibility = some v →
      v < visibility_thresholds.dangerous ∨ visibility_thresholds.poor ≤ v) :
    (analyze_conditions temperature pressure 35 visibility).overall_condition =
      "dangerous" := by
  have h35 : (35 : ℚ) > wind_thresholds.dangerous := by norm_num [wind_thresholds]
  show get_overall_condition temperature pressure 35 visibility = "dangerous"
  cases visibility with
  | none =>
      unfold get_overall_condition overall_condition_tail
      rw [if_pos h35]
  | some v =>
      rcases h with h | h
      · simp at h
      · rcases h v rfl with hv | hv
        · simp [get_overall_condition, hv]
        · have h1 : ¬ v < visibility_thresholds.dangerous := by
            simp only [visibility_thresholds] at hv ⊢
            simp only [not_lt]
            exact le_trans (by norm_num) hv
          have h2 : ¬ v < visibility_thresholds.poor := not_lt.mpr hv
          simp [get_overall_condition, overall_condition_tail, h1, h2, h35]

/-- Counterexample to C2 as stated: wind 35 with visibility 700 (in the poor
band) classifies as `"poor"`, not `"dangerous"`. -/
theorem C2_counterexample :
    (analyze_conditions 20 1013 35 (some 700)).overall_condition = "poor" ∧
      "poor" ≠ "dangerous" :=
  ⟨by with_unfolding_all rfl, by decide⟩

/-- Witness for C2 at `visibility = none`. -/
theorem C2_witness :
    (analyze_conditions 0 1013 35 none).overall_condition = "dangerous" :=
  C2_wind35_dangerous 0 1013 none (Or.inl rfl)

/-- C10: the recommendations list is never empty, and when no advisory
condition triggers it is exactly the single favourable-conditions message. -/
theorem C10_recommendations_nonempty (temperature pressure wind_speed : ℚ)
    (visibility : Option ℚ) :
    (analyze_conditions temperature pressure wind_speed visibility).recommendations ≠ [] ∧
    (¬ wind_speed > wind_thresholds.fair → ¬ pressure < 1000 → ¬ pressure > 1030 →
      visibility_below_good visibility = false →
      ¬ temperature < -20 → ¬ temperature > 40 →
      (analyze_conditions temperature pressure wind_speed visibility).recommendations =
        ["Условия благоприятны для полета"]) := by
  constructor
  · show get_recommendations temperature pressure wind_speed visibility ≠ []
    have key : ∀ l : List String,
        (if l = [] then ["Условия благоприятны для полета"] else l) ≠ [] := by
      intro l
      split
      · simp
      · next h => exact h
    exact key _
  · intro h1 h2 h3 h4 h5 h6
    show get_recommendations temperature pressure wind_speed visibility = _
    simp [get_recommendations, h1, h2, h3, h4, h5, h6]

/-- Witness for C10 under calm conditions. -/
theorem C10_witness :
    (analyze_conditions 20 1013 5 none).recommendations =
      ["Условия благоприятны для полета"] :=
  (C10_recommendations_nonempty 20 1013 5 none).2
    (by norm_num [wind_thresholds]) (by norm_num) (by norm_num) rfl
    (by norm_num) (by norm_num)

lemma dict_set_key {l : List (String × Airport)} (a : Airport)
    (h : ∀ p ∈ l, p.1 = p.2.icao_code) :
    ∀ p ∈ dict_set a.icao_code a l, p.1 = p.2.icao_code := by
  intro p hp
  unfold dict_set at hp
  split at hp
  · rw [List.mem_map] at hp
    obtain ⟨q, hq, rfl⟩ := hp
    by_cases hk : q.1 == a.icao_code
    · simp [hk]
    · simp only [hk, if_false, Bool.false_eq_true]
      exact h q hq
  · rw [List.mem_append] at hp
    rcases hp with hp | hp
    · exact h p hp
    · simp only [List.mem_singleton] at hp
      subst hp
      rfl

lemma load_loop_key : ∀ (l : List Airport) (acc : List (String × Airport)),
    (∀ p ∈ acc, p.1 = p.2.icao_code) →
    ∀ p ∈ l.foldl (fun s a => dict_set a.icao_code a s) acc, p.1 = p.2.icao_code := by
  intro l
  induction l with
  | nil => intro acc h; simpa using h
  | cons a l ih => intro acc h; exact ih _ (dict_set_key a h)

/-- C1 (amended): in every reachable registry state, each key of the map is
the `icao_code` of the airport stored under it, exactly as supplied —
`add_airport` stores under `airport.icao_code` without uppercasing, so keys
are the uppercase form of the code only when the supplied code was already
uppercase (as in the default load). -/
theorem C1_registry_keys (m : AirportManager) (h : Reachable m) :
    ∀ p ∈ m.airports, p.1 = p.2.icao_code := by
  induction h with
  | init => exact load_loop_key default_airports [] (by simp)
  | add m a _ ih => exact dict_set_key a ih

/-- An airport whose ICAO code is not already uppercase. -/
def lowercase_airport : Airport := ⟨"uuzz", "Тест", "Тест", "Тест", 0, 0, 0⟩

/-- Counterexample to C1 as stated: adding an airport whose code is
lowercase yields a reachable state whose key `"uuzz"` is not the uppercase
form `"UUZZ"` of the stored airport's code. -/
theorem C1_counterexample :
    Reachable (add_airport initial_airport_manager lowercase_airport) ∧
    ¬ (∀ p ∈ (add_airport initial_airport_manager lowercase_airport).airports,
        p.1 = py_upper p.2.icao_code) :=
  ⟨Reachable.add _ _ Reachable.init, by with_unfolding_all decide⟩

/-- Witness for C1 at the initial state: `"UUEE"` is stored under its own
code. -/
theorem C1_witness : "UUEE" = uuee.icao_code :=
  C1_registry_keys initial_airport_manager Reachable.init ("UUEE", uuee)
    (by
      have h : initial_airport_manager.airports =
          [("UUEE", uuee), ("UUDD", uudd), ("UUMO", uumo), ("EGLL", egll),
           ("LFPG", lfpg), ("EDDF", eddf), ("KJFK", kjfk), ("KLAX", klax),
           ("RJTT", rjtt), ("ZBAA", zbaa)] := by
        with_unfolding_all rfl
      rw [h]
      exact List.mem_cons_self _ _)

lemma efficiency_entries_ok (d : ℚ) : ∀ ts : List String,
    ∃ rs, efficiency_entries d ts = .ok rs ∧ rs.length = ts.length := by
  intro ts
  induction ts with
  | nil => exact ⟨[], rfl, rfl⟩
  | cons t ts ih =>
    obtain ⟨rs, hrs, hlen⟩ := ih
    obtain ⟨c, hc⟩ := fuel_consumption_ok d t 1 1
    obtain ⟨e, he⟩ := fuel_efficiency_ok d c.total_fuel
    refine ⟨⟨t, c.total_fuel, e, c.flight_time, c.fuel_per_100km⟩ :: rs, ?_,
      by simp [hlen]⟩
    simp only [efficiency_entries, hc, he, hrs, except_bind_ok]
    rfl

unseal List.merge List.mergeSort in
/-- C6: `compare_aircraft_efficiency(1000, [boeing_737, airbus_a320, cessna_172])`
returns exactly 3 entries sorted descending by efficiency with `cessna_172`
first; in general the returned list has one entry per requested type and is
sorted descending by efficiency (km per litre). -/
theorem C6_compare_efficiency :
    compare_aircraft_efficiency 1000 ["boeing_737", "airbus_a320", "cessna_172"] =
      .ok [⟨"cessna_172", 8, 125, 5, 0.8⟩,
           ⟨"airbus_a320", 23, 1000 / 23, 50 / 41, 2.3⟩,
           ⟨"boeing_737", 25, 40, 5 / 4, 2.5⟩] ∧
    (∀ (d : ℚ) (ts : List String), ∃ rs,
      compare_aircraft_efficiency d ts = .ok rs ∧ rs.length = ts.length ∧
      List.Sorted (fun x y => y.efficiency ≤ x.efficiency) rs) := by
  constructor
  · with_unfolding_all rfl
  · intro d ts
    obtain ⟨rs, hrs, hlen⟩ := efficiency_entries_ok d ts
    refine ⟨rs.mergeSort fun x y => decide (y.efficiency ≤ x.efficiency), ?_, ?_, ?_⟩
    · simp only [compare_aircraft_efficiency, hrs, except_bind_ok]
      rfl
    · simp [hlen]
    · have htrans : ∀ a b c : EfficiencyEntry,
          (fun x y => decide (y.efficiency ≤ x.efficiency)) a b →
          (fun x y => decide (y.efficiency ≤ x.efficiency)) b c →
          (fun x y => decide (y.efficiency ≤ x.efficiency)) a c := by
        intro a b c h1 h2
        simp only [decide_eq_true_eq] at h1 h2 ⊢
        exact le_trans h2 h1
      have htotal : ∀ a b : EfficiencyEntry,
          ((fun x y => decide (y.efficiency ≤ x.efficiency)) a b ||
            (fun x y => decide (y.efficiency ≤ x.efficiency)) b a) = true := by
        intro a b
        simp only [Bool.or_eq_true, decide_eq_true_eq]
        exact le_total b.efficiency a.efficiency
      have h := List.sorted_mergeSort htrans htotal rs
      exact List.Pairwise.imp (fun hab => by simpa using hab) h

/-- C7: `calculate_distance_between_airports` and `get_route_info` return
`None` when either supplied code has no registered airport; otherwise they
return the haversine distance, respectively the composite of both airport
snapshots, that distance, and the directional label built from the two
stored ICAO codes. -/
theorem C7_route_lookup (m : AirportManager) (code1 code2 : String) :
    ((get_airport m code1 = none ∨ get_airport m code2 = none) →
      calculate_distance_between_airports m code1 code2 = none ∧
      get_route_info m code1 code2 = none) ∧
    (∀ a1 a2, get_airport m code1 = some a1 → get_airport m code2 = some a2 →
      calculate_distance_between_airports m code1 code2 =
        some (calculate_distance a1.latitude a1.longitude a2.latitude a2.longitude) ∧
      get_route_info m code1 code2 =
        some ⟨a1.to_dict, a2.to_dict,
              some (calculate_distance a1.latitude a1.longitude a2.latitude a2.longitude),
              a1.icao_code ++ " → " ++ a2.icao_code⟩) := by
  constructor
  · intro h
    have hd : calculate_distance_between_airports m code1 code2 = none := by
      unfold calculate_distance_between_airports
      rcases h with h | h
      · rw [h]
      · cases h1 : get_airport m code1 <;> rw [h]
    have hr : get_route_info m code1 code2 = none := by
      unfold get_route_info
      rcases h with h | h
      · rw [h]
      · cases h1 : get_airport m code1 <;> rw [h]
    exact ⟨hd, hr⟩
  · intro a1 a2 h1 h2
    have hd : calculate_distance_between_airports m code1 code2 =
        some (calculate_distance a1.latitude a1.longitude a2.latitude a2.longitude) := by
      unfold calculate_distance_between_airports
      rw [h1, h2]
    refine ⟨hd, ?_⟩
    unfold get_route_info
    rw [h1, h2, hd]

/-- Witness for C7: an unregistered arrival code gives `None`; the
registered pair `UUEE → EGLL` gives the haversine distance between the two
stored airports. -/
theorem C7_witness :
    (calculate_distance_between_airports initial_airport_manager "UUEE" "ZZZZ" = none ∧
      get_route_info initial_airport_manager "UUEE" "ZZZZ" = none) ∧
    calculate_distance_between_airports initial_airport_manager "UUEE" "EGLL" =
      some (calculate_distance uuee.latitude uuee.longitude egll.latitude egll.longitude) :=
  ⟨(C7_route_lookup initial_airport_manager "UUEE" "ZZZZ").1
      (Or.inr (by with_unfolding_all rfl)),
   ((C7_route_lookup initial_airport_manager "UUEE" "EGLL").2 uuee egll
      (by with_unfolding_all rfl) (by with_unfolding_all rfl)).1⟩

lemma haversine_arg_symm (lat1 lon1 lat2 lon2 : ℝ) :
    haversine_arg lat1 lon1 lat2 lon2 = haversine_arg lat2 lon2 lat1 lon1 := by
  unfold haversine_arg
  rw [show (radians lat2 - radians lat1) / 2 = -((radians lat1 - radians lat2) / 2) by ring,
      show (radians lon2 - radians lon1) / 2 = -((radians lon1 - radians lon2) / 2) by ring,
      Real.sin_neg, Real.sin_neg]
  ring

lemma calculate_distance_symm (lat1 lon1 lat2 lon2 : ℝ) :
    calculate_distance lat1 lon1 lat2 lon2 = calculate_distance lat2 lon2 lat1 lon1 := by
  unfold calculate_distance
  rw [haversine_arg_symm]

lemma calculate_distance_self (lat lon : ℝ) : calculate_distance lat lon lat lon = 0 := by
  unfold calculate_distance haversine_arg
  simp [sub_self, Real.sqrt_zero, Real.arcsin_zero]

/-- C8: the haversine distance is symmetric in its two coordinate pairs and
zero on identical points, both for the raw coordinate function and for the
registry-level distance. -/
theorem C8_distance_symmetry :
    (∀ lat1 lon1 lat2 lon2 : ℝ,
      calculate_distance lat1 lon1 lat2 lon2 = calculate_distance lat2 lon2 lat1 lon1) ∧
    (∀ lat lon : ℝ, calculate_distance lat lon lat lon = 0) ∧
    (∀ (m : AirportManager) (code1 code2 : String),
      calculate_distance_between_airports m code1 code2 =
        calculate_distance_between_airports m code2 code1) := by
  refine ⟨calculate_distance_symm, calculate_distance_self, ?_⟩
  intro m code1 code2
  unfold calculate_distance_between_airports
  cases h1 : get_airport m code1 <;> cases h2 : get_airport m code2 <;>
    simp [calculate_distance_symm]
